import Mathlib

/-!
Verification of the UrsinaFlightSim repository (`D9.py`).

The development shallowly embeds the program's `Matrix` class, the password
hash function and the per-tick simulation step of `FlightSimulator` (the
`update` method and its helpers) in Lean.  Numbers that Python stores as
floats are modelled as rationals; the trigonometric functions and the
Ursina-engine direction vectors (`Entity.forward` / `up` / `right`), which
are external library code, are abstract parameters of the model.
-/

namespace UrsinaFlightSim

/-! ### The `Matrix` class (`D9.py`, lines 10-127)

A matrix is a list of rows.  `height` is `len(data)`, `width` is
`len(data[0])` for a non-empty matrix and `0` otherwise, exactly as in
`Matrix.__init__`.  Out-of-range accesses are given the default value `0`
(the embedded operations only read entries inside the loop ranges of the
Python code, where the two agree). -/

structure Mat where
  data : List (List ℚ)
deriving DecidableEq

def Mat.height (m : Mat) : ℕ := m.data.length

def Mat.width (m : Mat) : ℕ := (m.data.getD 0 []).length

def Mat.entry (m : Mat) (i j : ℕ) : ℚ := (m.data.getD i []).getD j 0

/-- A matrix tabulated by nested loops `for i in range(h): for j in range(w)`. -/
def Mat.tab (h w : ℕ) (g : ℕ → ℕ → ℚ) : Mat :=
  ⟨(List.range h).map (fun i => (List.range w).map (fun j => g i j))⟩

/-- `Matrix.sub(y, x)` (lines 34-47): keeps the rows `i` with `i != x` and,
inside each kept row, the columns `j` with `j != y`. -/
def Mat.sub (m : Mat) (y x : ℕ) : Mat :=
  ⟨((List.range m.height).filter (fun i => i ≠ x)).map
    (fun i => ((List.range m.width).filter (fun j => j ≠ y)).map
      (fun j => m.entry i j))⟩

/-- The recursion of `Matrix.det` (lines 49-67), run on explicit fuel so that
the definition is structurally recursive.  `Matrix.det` calls itself only on
`self.sub(0, i)`, which has one row fewer, so fuel `height` is enough. -/
def detFuel : ℕ → Mat → ℚ
  | 0, _ => 0
  | fuel + 1, m =>
    if m.width = 1 then m.entry 0 0
    else ((List.range m.height).map
      (fun i => m.entry 0 i * detFuel fuel (m.sub 0 i) * (-1) ^ i)).sum

/-- `Matrix.det` (lines 49-67): returns the string `"Error"` when the matrix
is not square, otherwise runs the Laplace-style recursion. -/
def Mat.det (m : Mat) : Except String ℚ :=
  if m.height ≠ m.width then .error "Error" else .ok (detFuel m.height m)

/-- `Matrix.__add__` (lines 70-83): shape check, then element-wise sum over
`range(self.height) × range(self.width)`. -/
def Mat.add (m n : Mat) : Except String Mat :=
  if m.height ≠ n.height ∨ m.width ≠ n.width then .error "Error"
  else .ok (Mat.tab m.height m.width (fun i j => m.entry i j + n.entry i j))

/-- The matrix-matrix branch of `Matrix.__mul__` (lines 85-106): shape check,
then the triple loop accumulating `sum_val`. -/
def Mat.mulMat (m n : Mat) : Except String Mat :=
  if m.width ≠ n.height then .error "Error"
  else .ok (Mat.tab m.height n.width
    (fun i j => ((List.range m.width).map (fun k => m.entry i k * n.entry k j)).sum))

/-- The scalar branch of `Matrix.__mul__` (lines 107-114): every entry times
the scalar. -/
def Mat.smul (m : Mat) (c : ℚ) : Mat :=
  Mat.tab m.height m.width (fun i j => m.entry i j * c)

/-! ### `hash_password` (`D9.py`, lines 141-159)

Characters are taken through `ord` (`Char.toNat`).  Python's `<<` on an
arbitrary integer is multiplication by the corresponding power of two, and
`%` by a positive modulus is Euclidean remainder, i.e. `Int.emod`. -/

/-- One iteration of the `for char in password` loop of `hash_password`. -/
def hashStep (salt : ℤ) (h : ℤ) (c : ℕ) : ℤ :=
  let h1 := h * 97
  let h2 := Int.xor h1 ((c : ℤ) + 144479)
  let h3 := h2 * 2 ^ (c % 5 + 1)
  let h4 := Int.xor h3 salt
  h4 + salt

def hash_password (password : String) (salt : ℤ) : ℤ :=
  (password.data.foldl (fun h c => hashStep salt h c.toNat) 867243217) % 387942806485727

/-! ### Basic facts about the tabulated matrices -/

theorem tab_height (h w : ℕ) (g : ℕ → ℕ → ℚ) : (Mat.tab h w g).height = h := by
  simp [Mat.tab, Mat.height]

theorem tab_width (h w : ℕ) (g : ℕ → ℕ → ℚ) (hh : h ≠ 0) :
    (Mat.tab h w g).width = w := by
  obtain ⟨k, rfl⟩ := Nat.exists_eq_succ_of_ne_zero hh
  simp [Mat.tab, Mat.width, List.range_succ_eq_map]

theorem height_eq_zero_width (m : Mat) (h : m.height = 0) : m.width = 0 := by
  have : m.data = [] := List.length_eq_zero.mp h
  simp [Mat.width, this]

deriving instance DecidableEq for Except

/-! ### C1: the determinant at a matrix with an all-zero row -/

/-- C1: the claim that `Matrix.det` computes the mathematical determinant
fails: on `Matrix([[0, 1], [0, 0]])`, whose second row is all zero, the code
returns `-1`, while the determinant of that matrix is `0`.  (The cause is
that `det` calls `self.sub(0, i)`, which removes row `i` and column `0`
rather than row `0` and column `i`.) -/
theorem det_zero_row_bug :
    Mat.det ⟨[[0, 1], [0, 0]]⟩ = Except.ok (-1) ∧
      Matrix.det !![(0 : ℚ), 1; 0, 0] = 0 := by
  constructor
  · simp [Mat.det, Mat.height, Mat.width, detFuel, Mat.sub, Mat.entry, List.range_succ]
  · simp [Matrix.det_fin_two]

/-! ### C2: shape errors -/

/-- C2: `__add__` fails (returns the error value) exactly when the operands
differ in height or width, the matrix-matrix branch of `__mul__` fails
exactly when the left width differs from the right height, and `det` fails
exactly when the matrix is not square. -/
theorem shape_error_conditions :
    (∀ m n : Mat, m.add n = Except.error "Error" ↔
      ¬(m.height = n.height ∧ m.width = n.width)) ∧
    (∀ m n : Mat, m.mulMat n = Except.error "Error" ↔ m.width ≠ n.height) ∧
    (∀ m : Mat, m.det = Except.error "Error" ↔ m.height ≠ m.width) := by
  refine ⟨fun m n => ?_, fun m n => ?_, fun m => ?_⟩
  · rw [Mat.add]
    split <;> rename_i hc <;> (simp_all [not_and_or]; try tauto)
  · rw [Mat.mulMat]
    split <;> simp_all
  · rw [Mat.det]
    split <;> simp_all

/-! ### C10: range of the password hash -/

/-- C10: for every password string and every integer salt, the stored hash
is non-negative and strictly below the prime modulus `387942806485727`
(so it fits in 63 bits). -/
theorem hash_password_range (password : String) (salt : ℤ) :
    0 ≤ hash_password password salt ∧
      hash_password password salt < 387942806485727 := by
  constructor
  · exact Int.emod_nonneg _ (by norm_num)
  · exact Int.emod_lt_of_pos _ (by norm_num)

/-! ### C6: what `Matrix.sub` removes -/

theorem range_filter_ne_map {α : Type} (n k : ℕ) (f : ℕ → α) (hk : k < n) :
    ((List.range n).filter (fun i => i ≠ k)).map f = ((List.range n).map f).eraseIdx k := by
  induction n with
  | zero => omega
  | succ n ih =>
    rw [List.range_succ, List.filter_append, List.map_append, List.map_append]
    by_cases hkn : k = n
    · subst hkn
      have h1 : (List.range k).filter (fun i => i ≠ k) = List.range k := by
        rw [List.filter_eq_self]
        intro a ha
        have := List.mem_range.mp ha
        simp
        omega
      have h2 : [k].filter (fun i => i ≠ k) = [] := by simp
      rw [h1, h2, List.eraseIdx_append_of_length_le (by simp)]
      simp
    · have hk' : k < n := by omega
      have h2 : [n].filter (fun i => i ≠ k) = [n] := by
        simp
        omega
      rw [h2, ih hk', List.eraseIdx_append_of_lt_length (by simp [hk'])]

theorem map_getD_compose {α β : Type} (l : List α) (d : α) (g : α → β) :
    (List.range l.length).map (fun i => g (l.getD i d)) = l.map g := by
  induction l with
  | nil => simp
  | cons a t ih =>
    rw [List.length_cons, List.range_succ_eq_map, List.map_cons, List.map_map]
    simp only [Function.comp_def, List.getD_cons_succ, List.getD_cons_zero]
    rw [ih, List.map_cons]

theorem map_getD_range {α : Type} (l : List α) (d : α) :
    (List.range l.length).map (fun i => l.getD i d) = l := by
  have := map_getD_compose l d id
  simpa using this

theorem eraseIdx_map_comm {α β : Type} (f : α → β) (l : List α) (k : ℕ) :
    (l.map f).eraseIdx k = (l.eraseIdx k).map f := by
  induction l generalizing k with
  | nil => simp
  | cons a t ih =>
    cases k with
    | zero => simp
    | succ k => simp [ih]

/-- C6, counterexample: on `Matrix([[1, 2], [3, 4]])`, `sub(0, 1)` returns
`[[2]]` (column 0 and row 1 removed), not `[[3]]` (which removing row 0 and
column 1 would give): the first argument names the column, not the row. -/
theorem sub_swaps_counterexample :
    Mat.sub ⟨[[1, 2], [3, 4]]⟩ 0 1 = ⟨[[2]]⟩ ∧
      Mat.sub ⟨[[1, 2], [3, 4]]⟩ 0 1 ≠ ⟨[[3]]⟩ := by
  constructor
  · simp [Mat.sub, Mat.entry, Mat.height, Mat.width, List.range_succ]
  · simp [Mat.sub, Mat.entry, Mat.height, Mat.width, List.range_succ]

/-- C6 (amended): for every rectangular matrix and in-range indices,
`sub(y, x)` removes the column named by the FIRST argument and the row named
by the SECOND argument, leaving all other elements in their original
relative order. -/
theorem sub_removes_col_row (m : Mat) (y x : ℕ) (hx : x < m.height) (hy : y < m.width)
    (hrect : ∀ row ∈ m.data, row.length = m.width) :
    (m.sub y x).data = (m.data.eraseIdx x).map (fun row => row.eraseIdx y) := by
  show ((List.range m.height).filter (fun i => i ≠ x)).map
      (fun i => ((List.range m.width).filter (fun j => j ≠ y)).map
        (fun j => m.entry i j)) = _
  rw [range_filter_ne_map _ _ _ hx]
  have hrows : (List.range m.height).map
      (fun i => ((List.range m.width).filter (fun j => j ≠ y)).map
        (fun j => m.entry i j)) =
      m.data.map (fun row => ((List.range m.width).filter (fun j => j ≠ y)).map
        (fun j => row.getD j 0)) :=
    map_getD_compose m.data []
      (fun row => ((List.range m.width).filter (fun j => j ≠ y)).map
        (fun j => row.getD j 0))
  rw [hrows, eraseIdx_map_comm]
  apply List.map_congr_left
  intro row hrow
  have hmem : row ∈ m.data := (List.eraseIdx_sublist m.data x).subset hrow
  have hlen : row.length = m.width := hrect row hmem
  rw [← hlen] at hy ⊢
  rw [range_filter_ne_map _ _ _ hy, map_getD_range]

/-- C6 witness: the amended statement instantiated at
`Matrix([[1, 2], [3, 4]]).sub(0, 1)`, which removes column `0` and row `1`. -/
theorem sub_removes_col_row_witness :
    1 < (Mat.mk [[1, 2], [3, 4]]).height ∧ 0 < (Mat.mk [[1, 2], [3, 4]]).width ∧
      (Mat.sub ⟨[[1, 2], [3, 4]]⟩ 0 1).data =
        ((Mat.mk [[1, 2], [3, 4]]).data.eraseIdx 1).map (fun row => row.eraseIdx 0) :=
  ⟨by norm_num [Mat.height], by norm_num [Mat.width],
    sub_removes_col_row ⟨[[1, 2], [3, 4]]⟩ 0 1 (by norm_num [Mat.height])
      (by norm_num [Mat.width]) (by intro row hrow; simp [Mat.width]; aesop)⟩

/-! ### The `FlightSimulator` per-tick step (`D9.py`, lines 721-1201)

The simulation state collects the fields of `FlightSimulator` that the
`update` method reads or writes: the two 4x1 state vectors, the three
control-surface scalars, `dt`, `flight_time`, the `run` / `menu_active` /
`crashed` flags, the aircraft position and Euler rotation, and the five
data-collection lists.  Camera and UI entities are pure rendering and are
not part of the model.

The fixed model data lives in `Params`: the state-space matrices `A`, `B`,
`C`, `D` read by `setup_physics`, plus the external library functions the
step calls: `math.cos` / `math.sin` and the Ursina direction vectors
`Entity.forward` / `up` / `right` (functions of the current rotation). -/

structure Vec3 where
  x : ℚ
  y : ℚ
  z : ℚ
deriving DecidableEq

def Vec3.add (a b : Vec3) : Vec3 := ⟨a.x + b.x, a.y + b.y, a.z + b.z⟩

def Vec3.smul (a : Vec3) (c : ℚ) : Vec3 := ⟨a.x * c, a.y * c, a.z * c⟩

/-- The `held_keys` the step reads: `w`/`s` (elevator), `e`/`q` (aileron),
`a`/`d` (rudder). -/
structure Inputs where
  w : Bool
  s : Bool
  e : Bool
  q : Bool
  a : Bool
  d : Bool
deriving DecidableEq

structure SimState where
  state_long : Mat
  state_lat : Mat
  elevator : ℚ
  aileron : ℚ
  rudder : ℚ
  dt : ℚ
  flight_time : ℚ
  run : Bool
  menu_active : Bool
  crashed : Bool
  pos : Vec3
  rot : Vec3
  time_data : List ℚ
  aoa_data : List ℚ
  velocity_data : List ℚ
  gforce_data : List ℚ
  altitude_data : List ℚ
deriving DecidableEq

structure Params where
  A : Mat
  B : Mat
  C : Mat
  D : Mat
  cosf : ℚ → ℚ
  sinf : ℚ → ℚ
  fwd : Vec3 → Vec3
  up : Vec3 → Vec3
  rgt : Vec3 → Vec3

/-- The zero state vector `Matrix([[0], [0], [0], [0]])` from `__init__`
(lines 747-748). -/
def zero41 : Mat := ⟨[[0], [0], [0], [0]]⟩

/-- `ground_y` (lines 761 and 786). -/
def groundY : ℚ := -100

/-- The conversion factor `57.2958` of `update_plane`. -/
def degPerRad : ℚ := 572958 / 10000

/-- `movment_scale = 1e-3` of `update_plane`. -/
def movmentScale : ℚ := 1 / 1000

/-- `update_control_surface` (lines 1026-1044): proportional input within
limits, spring-back when no key is held, and the snap-to-zero step. -/
def updateControlSurface (dt control : ℚ) (incHeld decHeld : Bool) (maximum : ℚ) : ℚ :=
  let c :=
    if incHeld ∧ control < maximum then control + 3 * dt
    else if decHeld ∧ control > -maximum then control - 3 * dt
    else if control > 0 then control - 5 * dt
    else if control < 0 then control + 5 * dt
    else control
  if |c| < 10 * dt ∧ ¬(incHeld ∨ decHeld) then 0 else c

/-- `update_state_vectors` (lines 1046-1072): the two Euler steps
`state_long += (A*state_long + B*elevator)*dt` and
`state_lat += (C*state_lat + D*[[aileron], [rudder]])*dt`, with any shape
error of the `Matrix` operations propagated. -/
def updStateVectors (A B C D sl sla : Mat) (elev ail rud dt : ℚ) :
    Except String (Mat × Mat) :=
  match A.mulMat sl with
  | .error e => .error e
  | .ok p =>
    match p.add (B.smul elev) with
    | .error e => .error e
    | .ok q =>
      match sl.add (q.smul dt) with
      | .error e => .error e
      | .ok sl2 =>
        match C.mulMat sla with
        | .error e => .error e
        | .ok r =>
          match D.mulMat ⟨[[ail], [rud]]⟩ with
          | .error e => .error e
          | .ok du =>
            match r.add du with
            | .error e => .error e
            | .ok t =>
              match sla.add (t.smul dt) with
              | .error e => .error e
              | .ok sla2 => .ok (sl2, sla2)

/-- `v = self.state_long.getmatrix()[0][0] + cruise_speed` with
`cruise_speed = self.A.getmatrix()[1][2]` (lines 1102-1103). -/
def trueAirspeed (A sl : Mat) : ℚ := sl.entry 0 0 + A.entry 1 2

/-- `sidelip_angle = self.state_lat.getmatrix()[0][0] / 57.2958` (line 1091). -/
def sideslipAngle (sla : Mat) : ℚ := sla.entry 0 0 / degPerRad

/-- `fv = v * cos(sidelip_angle)` (line 1106). -/
def forwardVelocity (P : Params) (sl sla : Mat) : ℚ :=
  trueAirspeed P.A sl * P.cosf (sideslipAngle sla)

/-- `update_plane` (lines 1074-1122): Euler-angle rotation update followed by
the three position increments along the rotated `forward` / `up` / `right`
directions. -/
def updatePlane (P : Params) (pos rot : Vec3) (sl sla : Mat) (dt : ℚ) : Vec3 × Vec3 :=
  let sideslip := sideslipAngle sla
  let pitch := -(sl.entry 2 0) / degPerRad
  let yaw := sla.entry 2 0 / degPerRad
  let roll := sla.entry 3 0 / degPerRad
  let v := trueAirspeed P.A sl
  let fv := forwardVelocity P sl sla
  let vv := sl.entry 1 0
  let hv := v * P.sinf sideslip
  let rot2 : Vec3 :=
    ⟨rot.x + degPerRad * (pitch * P.cosf roll + yaw * P.sinf roll) * dt,
     rot.y + degPerRad * (pitch * P.sinf roll + yaw * P.cosf roll) * dt,
     degPerRad * roll⟩
  let p1 := Vec3.add pos (Vec3.smul (P.fwd rot2) (fv * dt * movmentScale))
  let p2 := Vec3.add p1 (Vec3.smul (P.up rot2) (vv * dt * movmentScale))
  let p3 := Vec3.add p2 (Vec3.smul (P.rgt rot2) (hv * dt * movmentScale * 50))
  (p3, rot2)

/-- One call of `update` (lines 978-1015): the early return for a stopped,
menu-free, uncrashed simulator; then, only while `self.run`, the time step,
control-input update, state-vector update, plane update, ground-collision
check, data collection, and the 120-second cap.  A shape error inside
`update_state_vectors` is propagated as the error case. -/
def updateSim (P : Params) (inp : Inputs) (st : SimState) : Except String SimState :=
  if st.run = false ∧ st.menu_active = false ∧ st.crashed = false then .ok st
  else if st.run = true then
    let ft := st.flight_time + st.dt
    let elev := updateControlSurface st.dt st.elevator inp.w inp.s 5
    let ail := updateControlSurface st.dt st.aileron inp.e inp.q 5
    let rud := updateControlSurface st.dt st.rudder inp.a inp.d 5
    match updStateVectors P.A P.B P.C P.D st.state_long st.state_lat elev ail rud st.dt with
    | .error e => .error e
    | .ok (sl, sla) =>
      let pr := updatePlane P st.pos st.rot sl sla st.dt
      let crashedNow : Bool := decide (pr.1.y - 1 ≤ groundY)
      let vd := st.velocity_data ++ [sl.entry 0 0 + P.A.entry 1 2]
      let gf : ℚ :=
        if 1 < vd.length then
          (vd.getD (vd.length - 1) 0 - vd.getD (vd.length - 2) 0) / st.dt / (981 / 100)
        else 0
      .ok { st with
        flight_time := ft
        elevator := elev
        aileron := ail
        rudder := rud
        state_long := sl
        state_lat := sla
        pos := pr.1
        rot := pr.2
        crashed := if crashedNow then true else st.crashed
        run := if ft > 120 then false else (if crashedNow then false else st.run)
        time_data := st.time_data ++ [ft]
        aoa_data := st.aoa_data ++ [sl.entry 1 0]
        velocity_data := vd
        gforce_data := st.gforce_data ++ [gf]
        altitude_data := st.altitude_data ++ [pr.1.y - groundY] }
  else .ok st

/-! ### C7: spring-back snap to zero -/

/-- C7: with neither key of the axis held and a nonzero control value small
enough that the spring-back rate (5 per second) would carry it across zero
within one tick (`|c| < 5 * dt`), one control-surface update returns exactly
`0`. -/
theorem spring_back_snap (c dt maximum : ℚ) (h0 : c ≠ 0) (h : |c| < 5 * dt) :
    updateControlSurface dt c false false maximum = 0 := by
  have habs := abs_lt.mp h
  have hdt : 0 < 5 * dt := lt_of_le_of_lt (abs_nonneg c) h
  unfold updateControlSurface
  simp only [Bool.false_eq_true, false_and, if_false, false_or, not_false_iff, and_true]
  rcases lt_or_gt_of_ne h0 with hneg | hpos
  · have hinner : (if c > 0 then c - 5 * dt else if c < 0 then c + 5 * dt else c)
        = c + 5 * dt := by
      rw [if_neg (by linarith), if_pos hneg]
    rw [hinner, if_pos (by rw [abs_lt]; constructor <;> linarith)]
  · have hinner : (if c > 0 then c - 5 * dt else if c < 0 then c + 5 * dt else c)
        = c - 5 * dt := by
      rw [if_pos hpos]
    rw [hinner, if_pos (by rw [abs_lt]; constructor <;> linarith)]

/-- C7 witness: control value `1/100` with tick `dt = 1/100` and no held
input snaps exactly to zero. -/
theorem spring_back_snap_witness :
    ((1 : ℚ) / 100 ≠ 0) ∧ |(1 : ℚ) / 100| < 5 * (1 / 100) ∧
      updateControlSurface (1 / 100) (1 / 100) false false 5 = 0 :=
  ⟨by norm_num, by rw [abs_of_pos (by norm_num)]; norm_num,
    spring_back_snap (1 / 100) (1 / 100) 5 (by norm_num)
      (by rw [abs_of_pos (by norm_num)]; norm_num)⟩

/-! ### C8: bound on the control values after an update -/

/-- C8, counterexample: the update does not clamp to `[-5, 5]`.  Starting
from elevator `4.99` (inside the claimed range) with the increase key held
and the code's own tick `dt = 0.01667`, the post-update value is
`4.99 + 3 * 0.01667 = 5.04001 > 5`. -/
theorem clamp_overshoot_counterexample :
    ¬ |updateControlSurface (1667 / 100000) (499 / 100) true false 5| ≤ 5 := by
  have hv : updateControlSurface (1667 / 100000) (499 / 100) true false 5
      = 504001 / 100000 := by
    norm_num [updateControlSurface]
  rw [hv, abs_of_pos (by norm_num)]
  norm_num

/-- C8 (amended): for a tick `0 ≤ dt ≤ 1` (the code's `dt` is `0.01667`),
a control value starting within `[-5, 5]` ends within the slightly larger
range `[-(5 + 3*dt), 5 + 3*dt]` for every combination of held inputs; a held
input at the edge of the range can overshoot `max = 5` by up to `3 * dt`. -/
theorem control_stays_bounded (c dt : ℚ) (inc dec : Bool) (hc : |c| ≤ 5)
    (h0 : 0 ≤ dt) (h1 : dt ≤ 1) :
    |updateControlSurface dt c inc dec 5| ≤ 5 + 3 * dt := by
  have hc' := abs_le.mp hc
  unfold updateControlSurface
  dsimp only
  split_ifs with hs hi hd hp hn hi hd hp hn <;>
    first
      | (simp only [abs_zero]; linarith)
      | (rw [abs_le]; constructor <;> linarith)

/-- C8 witness: the amended bound instantiated at control value `5` with the
increase key held and `dt = 1/100`. -/
theorem control_stays_bounded_witness :
    |(5 : ℚ)| ≤ 5 ∧ (0 : ℚ) ≤ 1 / 100 ∧ (1 : ℚ) / 100 ≤ 1 ∧
      |updateControlSurface (1 / 100) 5 true false 5| ≤ 5 + 3 * (1 / 100) :=
  ⟨by rw [abs_of_pos (by norm_num)], by norm_num, by norm_num,
    control_stays_bounded 5 (1 / 100) true false
      (by rw [abs_of_pos (by norm_num)]) (by norm_num) (by norm_num)⟩

/-! ### Dimension lemmas for the successful branches of the matrix ops -/

theorem add_ok (m n : Mat) (h1 : m.height = n.height) (h2 : m.width = n.width) :
    m.add n = Except.ok (Mat.tab m.height m.width (fun i j => m.entry i j + n.entry i j)) := by
  rw [Mat.add, if_neg]
  simp [h1, h2]

theorem mul_ok (m n : Mat) (h : m.width = n.height) :
    m.mulMat n = Except.ok (Mat.tab m.height n.width
      (fun i j => ((List.range m.width).map (fun k => m.entry i k * n.entry k j)).sum)) := by
  rw [Mat.mulMat, if_neg]
  simp [h]

theorem smul_height (m : Mat) (c : ℚ) : (m.smul c).height = m.height :=
  tab_height _ _ _

theorem smul_width (m : Mat) (c : ℚ) : (m.smul c).width = m.width := by
  by_cases h : m.height = 0
  · rw [Mat.smul, h, height_eq_zero_width m h]
    rfl
  · exact tab_width _ _ _ h

theorem add_dims (m n : Mat) (h1 : m.height = n.height) (h2 : m.width = n.width)
    (hm : m.height ≠ 0) :
    ∃ r, m.add n = Except.ok r ∧ r.height = m.height ∧ r.width = m.width :=
  ⟨_, add_ok m n h1 h2, tab_height _ _ _, tab_width _ _ _ hm⟩

theorem mul_dims (m n : Mat) (h : m.width = n.height) (hm : m.height ≠ 0) :
    ∃ r, m.mulMat n = Except.ok r ∧ r.height = m.height ∧ r.width = n.width :=
  ⟨_, mul_ok m n h, tab_height _ _ _, tab_width _ _ _ hm⟩

/-! ### Zero-propagation lemmas for the state-vector update -/

theorem zero41_entry (k j : ℕ) : zero41.entry k j = 0 := by
  rcases k with _ | _ | _ | _ | k <;> rcases j with _ | j <;>
    simp [zero41, Mat.entry, List.getD]

theorem zerocol2_entry (k j : ℕ) : (Mat.mk [[0], [0]]).entry k j = 0 := by
  rcases k with _ | _ | k <;> rcases j with _ | j <;>
    simp [Mat.entry, List.getD]

theorem mul_zero_col (m u : Mat) (hw : m.width = u.height) (hu : ∀ k j, u.entry k j = 0)
    (hm : m.height = 4) (huw : u.width = 1) :
    m.mulMat u = Except.ok zero41 := by
  rw [mul_ok m u hw]
  congr 1
  have hterm : ∀ i j : ℕ,
      ((List.range m.width).map (fun k => m.entry i k * u.entry k j)).sum = 0 := by
    intro i j
    have hz : ∀ k, m.entry i k * u.entry k j = 0 := fun k => by rw [hu k j, mul_zero]
    simp [hz]
  rw [hm, huw]
  unfold Mat.tab
  simp only [hterm]
  rfl

theorem smul_zero_41 (m : Mat) (h4 : m.height = 4) (h1 : m.width = 1) :
    m.smul 0 = zero41 := by
  unfold Mat.smul
  rw [h4, h1]
  simp only [mul_zero]
  rfl

theorem smul_zero41_any (dt : ℚ) : zero41.smul dt = zero41 := by
  unfold Mat.smul
  simp only [zero41_entry, zero_mul]
  rfl

theorem add_zero41_zero41 : zero41.add zero41 = Except.ok zero41 := by
  rw [add_ok zero41 zero41 rfl rfl]
  congr 1
  unfold Mat.tab
  simp only [zero41_entry, add_zero]
  rfl

/-- With both state vectors zero and all three control deflections zero,
`update_state_vectors` returns the zero vectors again. -/
theorem usv_zero (A B C D : Mat) (dt : ℚ)
    (hA : A.height = 4) (hA2 : A.width = 4) (hB : B.height = 4) (hB2 : B.width = 1)
    (hC : C.height = 4) (hC2 : C.width = 4) (hD : D.height = 4) (hD2 : D.width = 2) :
    updStateVectors A B C D zero41 zero41 0 0 0 dt = Except.ok (zero41, zero41) := by
  have h1 : A.mulMat zero41 = Except.ok zero41 :=
    mul_zero_col A zero41 (by rw [hA2]; rfl) zero41_entry hA rfl
  have h2 : B.smul 0 = zero41 := smul_zero_41 B hB hB2
  have h5 : C.mulMat zero41 = Except.ok zero41 :=
    mul_zero_col C zero41 (by rw [hC2]; rfl) zero41_entry hC rfl
  have h6 : D.mulMat ⟨[[0], [0]]⟩ = Except.ok zero41 :=
    mul_zero_col D ⟨[[0], [0]]⟩ (by rw [hD2]; rfl) zerocol2_entry hD rfl
  unfold updStateVectors
  simp only [h1, h2, h5, h6, add_zero41_zero41, smul_zero41_any]

/-- With no held key, a control at `0` stays exactly at `0`. -/
theorem ucs_zero (dt maximum : ℚ) :
    updateControlSurface dt 0 false false maximum = 0 := by
  simp [updateControlSurface]

/-! ### C4: the step is a no-op once the simulation has stopped -/

/-- C4: once `run` is false (set by the ground-collision check or by the
120-second cap), every further call of the per-tick `update` leaves the
whole state — state vectors, control surfaces, position, orientation, and
everything else — unchanged. -/
theorem halted_step_noop (P : Params) (inp : Inputs) (st : SimState)
    (h : st.run = false) :
    updateSim P inp st = Except.ok st := by
  unfold updateSim
  rw [h]
  simp

/-! ### Concrete fixtures used by the witnesses -/

def matA : Mat := ⟨[[0, 0, 0, 0], [0, 0, 50, 0], [0, 0, 0, 0], [0, 0, 0, 0]]⟩

def matC : Mat := ⟨[[0, 0, 0, 0], [0, 0, 0, 0], [0, 0, 0, 0], [0, 0, 0, 0]]⟩

def matD : Mat := ⟨[[0, 0], [0, 0], [0, 0], [0, 0]]⟩

def params0 : Params :=
  { A := matA, B := zero41, C := matC, D := matD,
    cosf := fun _ => 1, sinf := fun _ => 0,
    fwd := fun _ => ⟨0, 0, 1⟩, up := fun _ => ⟨0, 1, 0⟩, rgt := fun _ => ⟨1, 0, 0⟩ }

def noKeys : Inputs := ⟨false, false, false, false, false, false⟩

/-- The state right after `FlightSimulator.__init__`: zero state vectors,
zero controls, `dt = 0.01667`, plane at `(0, -2, 20)`. -/
def st0 : SimState :=
  { state_long := zero41, state_lat := zero41,
    elevator := 0, aileron := 0, rudder := 0,
    dt := 1667 / 100000, flight_time := 0,
    run := true, menu_active := false, crashed := false,
    pos := ⟨0, -2, 20⟩, rot := ⟨0, 0, 0⟩,
    time_data := [], aoa_data := [], velocity_data := [],
    gforce_data := [], altitude_data := [] }

/-- C4 witness: a crashed (halted) state is left untouched by `update`. -/
theorem halted_step_noop_witness :
    updateSim params0 noKeys { st0 with run := false, crashed := true }
      = Except.ok { st0 with run := false, crashed := true } :=
  halted_step_noop params0 noKeys _ rfl

/-! ### C3: zero-input steady state -/

/-- Core computation shared by the zero-state theorems: a step from zero
state vectors, zero controls and no held input keeps both state vectors at
zero, keeps the controls at zero, and appends the cruise speed (plus the
zero velocity perturbation) to `velocity_data`. -/
theorem step_zero_aux (P : Params) (inp : Inputs) (st : SimState)
    (hA : P.A.height = 4) (hA2 : P.A.width = 4) (hB : P.B.height = 4) (hB2 : P.B.width = 1)
    (hC : P.C.height = 4) (hC2 : P.C.width = 4) (hD : P.D.height = 4) (hD2 : P.D.width = 2)
    (hsl : st.state_long = zero41) (hsla : st.state_lat = zero41)
    (he : st.elevator = 0) (hai : st.aileron = 0) (hru : st.rudder = 0)
    (hrun : st.run = true)
    (hw : inp.w = false) (hs : inp.s = false) (hee : inp.e = false)
    (hq : inp.q = false) (ha : inp.a = false) (hd : inp.d = false) :
    ∃ st2, updateSim P inp st = Except.ok st2 ∧
      st2.state_long = zero41 ∧ st2.state_lat = zero41 ∧
      st2.velocity_data = st.velocity_data ++ [zero41.entry 0 0 + P.A.entry 1 2] := by
  have husv := usv_zero P.A P.B P.C P.D st.dt hA hA2 hB hB2 hC hC2 hD hD2
  unfold updateSim
  simp only [hrun, hw, hs, hee, hq, ha, hd, he, hai, hru, hsl, hsla, ucs_zero, husv,
    Bool.true_eq_false, false_and, if_false, if_true]
  exact ⟨_, rfl, rfl, rfl, rfl⟩

/-- C3: for every `dt`, starting from zero longitudinal and lateral state
vectors, zero elevator/aileron/rudder and no held input, one per-tick step
leaves `state_long` and `state_lat` exactly at the zero vector (the matrices
having the shapes fixed by the 4-state layout). -/
theorem zero_input_steady_state (P : Params) (inp : Inputs) (st : SimState)
    (hA : P.A.height = 4) (hA2 : P.A.width = 4) (hB : P.B.height = 4) (hB2 : P.B.width = 1)
    (hC : P.C.height = 4) (hC2 : P.C.width = 4) (hD : P.D.height = 4) (hD2 : P.D.width = 2)
    (hsl : st.state_long = zero41) (hsla : st.state_lat = zero41)
    (he : st.elevator = 0) (hai : st.aileron = 0) (hru : st.rudder = 0)
    (hrun : st.run = true)
    (hw : inp.w = false) (hs : inp.s = false) (hee : inp.e = false)
    (hq : inp.q = false) (ha : inp.a = false) (hd : inp.d = false) :
    ∃ st2, updateSim P inp st = Except.ok st2 ∧
      st2.state_long = zero41 ∧ st2.state_lat = zero41 := by
  obtain ⟨st2, h1, h2, h3, _⟩ := step_zero_aux P inp st hA hA2 hB hB2 hC hC2 hD hD2
    hsl hsla he hai hru hrun hw hs hee hq ha hd
  exact ⟨st2, h1, h2, h3⟩

/-- C3 witness: the freshly initialised simulator state with the concrete
parameter set, stepped once with no key held. -/
theorem zero_input_steady_state_witness :
    ∃ st2, updateSim params0 noKeys st0 = Except.ok st2 ∧
      st2.state_long = zero41 ∧ st2.state_lat = zero41 :=
  zero_input_steady_state params0 noKeys st0 rfl rfl rfl rfl rfl rfl rfl rfl
    rfl rfl rfl rfl rfl rfl rfl rfl rfl rfl rfl rfl

/-! ### C5: the step never fails once the shapes are right -/

theorem usv_ok (A B C D sl sla : Mat) (elev ail rud dt : ℚ)
    (hA : A.height = 4) (hA2 : A.width = 4) (hB : B.height = 4) (hB2 : B.width = 1)
    (hC : C.height = 4) (hC2 : C.width = 4) (hD : D.height = 4) (hD2 : D.width = 2)
    (hsl : sl.height = 4) (hslw : sl.width = 1) (hsla : sla.height = 4) (hslaw : sla.width = 1) :
    ∃ sl2 sla2, updStateVectors A B C D sl sla elev ail rud dt = Except.ok (sl2, sla2) ∧
      sl2.height = 4 ∧ sl2.width = 1 ∧ sla2.height = 4 ∧ sla2.width = 1 := by
  obtain ⟨p, hp, hp1, hp2⟩ := mul_dims A sl (by rw [hA2, hsl]) (by rw [hA]; norm_num)
  obtain ⟨q, hq, hq1, hq2⟩ := add_dims p (B.smul elev)
    (by rw [hp1, hA, smul_height, hB]) (by rw [hp2, hslw, smul_width, hB2])
    (by rw [hp1, hA]; norm_num)
  obtain ⟨sl2, hsl2, hd1, hd2⟩ := add_dims sl (q.smul dt)
    (by rw [smul_height, hq1, hp1, hA, hsl]) (by rw [smul_width, hq2, hp2, hslw])
    (by rw [hsl]; norm_num)
  obtain ⟨r, hr, hr1, hr2⟩ := mul_dims C sla (by rw [hC2, hsla]) (by rw [hC]; norm_num)
  obtain ⟨du, hdu, hdu1, hdu2⟩ := mul_dims D ⟨[[ail], [rud]]⟩
    (by rw [hD2]; rfl) (by rw [hD]; norm_num)
  obtain ⟨t, ht, ht1, ht2⟩ := add_dims r du
    (by rw [hr1, hC, hdu1, hD]) (by rw [hr2, hslaw, hdu2]; rfl)
    (by rw [hr1, hC]; norm_num)
  obtain ⟨sla2, hsla2, hd3, hd4⟩ := add_dims sla (t.smul dt)
    (by rw [smul_height, ht1, hr1, hC, hsla]) (by rw [smul_width, ht2, hr2, hslaw])
    (by rw [hsla]; norm_num)
  refine ⟨sl2, sla2, ?_, by rw [hd1, hsl], by rw [hd2, hslw],
    by rw [hd3, hsla], by rw [hd4, hslaw]⟩
  unfold updStateVectors
  simp only [hp, hq, hsl2, hr, hdu, ht, hsla2]

/-- C5: once construction has produced `A`, `C` of shape 4x4, `B` of shape
4x1 and `D` of shape 4x2, and the state vectors are 4x1 (as they are from
`__init__` on), the per-tick step never hits a shape-error branch: `update`
returns a new state, again with 4x1 state vectors. -/
theorem step_never_errors (P : Params) (inp : Inputs) (st : SimState)
    (hA : P.A.height = 4) (hA2 : P.A.width = 4) (hB : P.B.height = 4) (hB2 : P.B.width = 1)
    (hC : P.C.height = 4) (hC2 : P.C.width = 4) (hD : P.D.height = 4) (hD2 : P.D.width = 2)
    (hsl : st.state_long.height = 4) (hslw : st.state_long.width = 1)
    (hsla : st.state_lat.height = 4) (hslaw : st.state_lat.width = 1) :
    ∃ st2, updateSim P inp st = Except.ok st2 ∧
      st2.state_long.height = 4 ∧ st2.state_long.width = 1 ∧
      st2.state_lat.height = 4 ∧ st2.state_lat.width = 1 := by
  by_cases hrun : st.run = true
  · obtain ⟨sl2, sla2, husv, d1, d2, d3, d4⟩ := usv_ok P.A P.B P.C P.D
      st.state_long st.state_lat
      (updateControlSurface st.dt st.elevator inp.w inp.s 5)
      (updateControlSurface st.dt st.aileron inp.e inp.q 5)
      (updateControlSurface st.dt st.rudder inp.a inp.d 5)
      st.dt hA hA2 hB hB2 hC hC2 hD hD2 hsl hslw hsla hslaw
    unfold updateSim
    simp only [hrun, husv, Bool.true_eq_false, false_and, if_false, if_true]
    exact ⟨_, rfl, d1, d2, d3, d4⟩
  · have hrun' : st.run = false := by
      revert hrun
      cases st.run <;> simp
    refine ⟨st, ?_, hsl, hslw, hsla, hslaw⟩
    unfold updateSim
    rw [hrun']
    simp

/-- C5 witness: the step applied to the freshly initialised state with the
concrete parameter set. -/
theorem step_never_errors_witness :
    ∃ st2, updateSim params0 noKeys st0 = Except.ok st2 ∧
      st2.state_long.height = 4 ∧ st2.state_long.width = 1 ∧
      st2.state_lat.height = 4 ∧ st2.state_lat.width = 1 :=
  step_never_errors params0 noKeys st0 rfl rfl rfl rfl rfl rfl rfl rfl
    rfl rfl rfl rfl

/-! ### C9: reported airspeed at cruise -/

/-- C9: with `A[1][2] = 50` (the cruise speed), zero perturbation state and
zero controls, the step reports true airspeed `v = state_long[0][0] +
cruise_speed = 50` and forward velocity `v * cos(sideslip) = 50` (sideslip
is zero and `cos 0 = 1`), and appends `50` to the velocity data list. -/
theorem cruise_speed_report (P : Params) (inp : Inputs) (st : SimState)
    (hA : P.A.height = 4) (hA2 : P.A.width = 4) (hB : P.B.height = 4) (hB2 : P.B.width = 1)
    (hC : P.C.height = 4) (hC2 : P.C.width = 4) (hD : P.D.height = 4) (hD2 : P.D.width = 2)
    (hsl : st.state_long = zero41) (hsla : st.state_lat = zero41)
    (he : st.elevator = 0) (hai : st.aileron = 0) (hru : st.rudder = 0)
    (hrun : st.run = true)
    (hw : inp.w = false) (hs : inp.s = false) (hee : inp.e = false)
    (hq : inp.q = false) (ha : inp.a = false) (hd : inp.d = false)
    (h50 : P.A.entry 1 2 = 50) (hcos : P.cosf 0 = 1) :
    ∃ st2, updateSim P inp st = Except.ok st2 ∧
      trueAirspeed P.A st2.state_long = 50 ∧
      forwardVelocity P st2.state_long st2.state_lat = 50 ∧
      st2.velocity_data = st.velocity_data ++ [50] := by
  obtain ⟨st2, h1, h2, h3, h4⟩ := step_zero_aux P inp st hA hA2 hB hB2 hC hC2 hD hD2
    hsl hsla he hai hru hrun hw hs hee hq ha hd
  refine ⟨st2, h1, ?_, ?_, ?_⟩
  · rw [trueAirspeed, h2, zero41_entry, h50, zero_add]
  · rw [forwardVelocity, trueAirspeed, h2, h3, zero41_entry, h50, zero_add,
      sideslipAngle, zero41_entry, zero_div, hcos, mul_one]
  · rw [h4, zero41_entry, h50, zero_add]

/-- C9 witness: the concrete parameter set has `A[1][2] = 50` and `cos 0 = 1`,
and the step from the initial state reports airspeed and forward velocity 50. -/
theorem cruise_speed_report_witness :
    ∃ st2, updateSim params0 noKeys st0 = Except.ok st2 ∧
      trueAirspeed params0.A st2.state_long = 50 ∧
      forwardVelocity params0 st2.state_long st2.state_lat = 50 ∧
      st2.velocity_data = st0.velocity_data ++ [50] :=
  cruise_speed_report params0 noKeys st0 rfl rfl rfl rfl rfl rfl rfl rfl
    rfl rfl rfl rfl rfl rfl rfl rfl rfl rfl rfl rfl rfl rfl

end UrsinaFlightSim
